import Mathlib

/-!
Verification of the wallet-risk agent decision engine.

Shallow embedding of the core pipeline: the data model (models.py), the
rule-based scoring and decision engine (rules.py), the escalation reasoning
layer (llm_reasoning.py) and the orchestrator (orchestrator.py).

Python floats are modelled as rationals; all constants appearing in the
source are exact decimals, so the arithmetic is exact.  Python truthiness
on optional values (None and 0.0 and the empty string are falsy) is modelled
explicitly wherever the source relies on it.  The external reasoning
provider is modelled as an explicit outcome parameter: the provider either
is not configured, returns a structured response, raises a transport or
parse error, or (when the configured key is an empty string) yields the
canned mock response, exactly the four paths of LLMReasoning.
-/

namespace WalletRisk

/-! ## Data model (src/agent/models.py) -/

structure TransactionVelocity where
  last_24h : Int
  last_7d : Int
  last_30d : Int
deriving Repr, DecidableEq

structure CurrentBalance where
  native : ℚ
  stablecoins : ℚ
  total_usd : ℚ
deriving Repr, DecidableEq

structure PortfolioValue where
  tokens : ℚ
  nfts : ℚ
  defi : ℚ
  total_usd : ℚ
deriving Repr, DecidableEq

structure SuspiciousPatterns where
  rapid_draining : Bool := false
  unusual_activity : Bool := false
  new_wallet_high_value : Bool := false
  mixer_interaction : Bool := false
  sanctioned_address_interaction : Bool := false
deriving Repr, DecidableEq

structure DeFiProtocol where
  protocol_name : String
  interaction_count : Int
  total_value_locked : ℚ
  last_interaction : Int
deriving Repr, DecidableEq

structure LendingBorrowing where
  total_borrowed : ℚ
  total_collateral : ℚ
  health_factor : ℚ
deriving Repr, DecidableEq

structure WalletSignals where
  wallet_address : String
  first_seen_timestamp : Int
  age_in_days : Int
  total_transactions : Int
  average_transactions_per_day : ℚ
  last_activity_timestamp : Int
  days_since_last_activity : Int
  current_balance : CurrentBalance
  portfolio_value : PortfolioValue
  transaction_velocity : TransactionVelocity
  unique_contracts_interacted : Int
  unique_addresses_interacted : Int
  suspicious_patterns : SuspiciousPatterns
  defi_protocols : List DeFiProtocol := []
  lending_borrowing : Option LendingBorrowing := none
  credit_score : Option ℚ := none
  on_chain_reputation : Option ℚ := none
  ens_name : Option String := none
  has_poap : Bool := false
  has_gitcoin_passport : Bool := false
deriving Repr, DecidableEq

structure LiquidityDepth where
  tier1 : ℚ
  tier2 : ℚ
  tier3 : ℚ
deriving Repr, DecidableEq

structure PegStability where
  asset : String
  target_price : ℚ
  current_price : ℚ
  deviation : ℚ
deriving Repr, DecidableEq

structure RecentUpgrade where
  contract : String
  timestamp : Int
  audited : Bool
deriving Repr, DecidableEq

structure ProtocolHealthIndicators where
  total_value_locked : ℚ
  total_active_users : Int
  system_utilization_rate : ℚ
  liquidity_depth : LiquidityDepth
  default_rate : ℚ
  average_health_factor : ℚ
  liquidation_events_24h : Int
  pegs_stability : List PegStability := []
  oracle_freshness : Bool := true
  oracle_deviation : ℚ := 0
  paused_contracts : List String := []
  recent_upgrades : List RecentUpgrade := []
deriving Repr, DecidableEq

inductive MarketSentiment where
  | EXTREME_FEAR | FEAR | NEUTRAL | GREED | EXTREME_GREED
deriving Repr, DecidableEq

inductive NetworkCongestion where
  | LOW | MEDIUM | HIGH | EXTREME
deriving Repr, DecidableEq

structure AssetVolatility where
  asset : String
  price_24h_change : ℚ
  price_7d_change : ℚ
  volatility_30d : ℚ
  volume_24h : ℚ
  volume_change : ℚ
deriving Repr, DecidableEq

structure GasPrice where
  current : ℚ
  average_7d : ℚ
  percentile : ℚ
deriving Repr, DecidableEq

structure MarketVolatilityFlags where
  volatility_index : ℚ
  market_sentiment : MarketSentiment
  asset_volatility : List AssetVolatility := []
  flash_crash_detected : Bool := false
  black_swan_event : Bool := false
  regulatory_news : Bool := false
  gas_price : Option GasPrice := none
  network_congestion : NetworkCongestion := .MEDIUM
  large_liquidations_in_progress : Bool := false
  estimated_liquidation_cascade : ℚ := 0
deriving Repr, DecidableEq

inductive RequestType where
  | NEW_LOAN | POSITION_REVIEW | SCHEDULED_CHECK | MANUAL_REVIEW
deriving Repr, DecidableEq

inductive Urgency where
  | LOW | MEDIUM | HIGH
deriving Repr, DecidableEq

structure RequestMetadata where
  request_id : String
  timestamp : Int
  request_type : RequestType
  requested_by : String
  urgency : Urgency := .MEDIUM
deriving Repr, DecidableEq

structure AgentInput where
  wallet_signals : WalletSignals
  protocol_health : ProtocolHealthIndicators
  market_volatility : MarketVolatilityFlags
  metadata : RequestMetadata
deriving Repr, DecidableEq

/-- Decisions are the literal strings of the source `DecisionType` Literal:
NO_ACTION, MONITOR, REQUEST_SEVERITY_ANALYSIS, ENFORCE_ACTION. -/
abbrev DecisionType := String

structure OutputMetadata where
  processing_time_ms : ℚ
  llm_used : Bool
  rule_based_score : ℚ
  llm_score : Option ℚ := none
deriving Repr, DecidableEq

structure AgentOutput where
  decision : DecisionType
  confidence : ℚ
  reasoning : String
  risk_score : ℚ
  recommendations : List String
  flags : List String
  timestamp : Int
  metadata : OutputMetadata
deriving Repr, DecidableEq

/-! Python truthiness helpers: None, 0.0 and the empty string are falsy. -/

/-- Truthiness of an optional float (Python: `if x:` with `x : Optional[float]`). -/
def qTruthy : Option ℚ → Bool
  | none => false
  | some v => decide (v ≠ 0)

/-- Truthiness of an optional string (Python: `if x:` with `x : Optional[str]`). -/
def strTruthy : Option String → Bool
  | none => false
  | some s => decide (s ≠ "")

/-- Python `x and x > t` for an optional float `x`: truthy iff the value is
present, nonzero, and above the threshold. -/
def optGT (x : Option ℚ) (t : ℚ) : Bool :=
  match x with
  | none => false
  | some v => decide (v ≠ 0 ∧ t < v)

/-! ## Rule-based engine (src/agent/rules.py) -/

/-- RuleBasedEngine._score_wallet_age -/
def score_wallet_age (signals : WalletSignals) : ℚ :=
  let age := signals.age_in_days
  if age < 7 then 20
  else if age < 30 then 10
  else if age < 90 then 5
  else if age > 365 then -10
  else 0

/-- RuleBasedEngine._score_balance -/
def score_balance (signals : WalletSignals) : ℚ :=
  let total_balance := signals.current_balance.total_usd
  (if total_balance < 100 then 15 else if total_balance < 1000 then 5 else 0)
  + (if signals.age_in_days < 30 ∧ total_balance > 50000 then 10 else 0)
  + (if signals.age_in_days > 365 ∧ signals.portfolio_value.total_usd > 100000 then -5 else 0)

/-- RuleBasedEngine._calculate_velocity_ratio: guarded against zero division;
returns the neutral ratio 1.0 when the wallet age or the 30-day count is zero. -/
def calculate_velocity_ratio (velocity : TransactionVelocity) (age_days : Int) : ℚ :=
  if age_days = 0 ∨ velocity.last_30d = 0 then 1
  else
    let avg_daily := (velocity.last_30d : ℚ) / 30
    if avg_daily = 0 then 1
    else (velocity.last_24h : ℚ) / avg_daily

/-- RuleBasedEngine._score_transaction_patterns -/
def score_transaction_patterns (signals : WalletSignals) : ℚ :=
  let velocity_ratio := calculate_velocity_ratio signals.transaction_velocity signals.age_in_days
  (if velocity_ratio > 5 then 25
   else if velocity_ratio > 3 then 15
   else if velocity_ratio > 2 then 10
   else 0)
  + (if signals.days_since_last_activity > 90 then 10 else 0)

/-- RuleBasedEngine._score_suspicious_patterns -/
def score_suspicious_patterns (signals : WalletSignals) : ℚ :=
  let patterns := signals.suspicious_patterns
  (if patterns.rapid_draining then 30 else 0)
  + (if patterns.mixer_interaction then 25 else 0)
  + (if patterns.new_wallet_high_value then 20 else 0)
  + (if patterns.unusual_activity then 15 else 0)
  + (if patterns.sanctioned_address_interaction then 50 else 0)

/-- RuleBasedEngine._score_reputation -/
def score_reputation (signals : WalletSignals) : ℚ :=
  (if strTruthy signals.ens_name then -10 else 0)
  + (if signals.has_gitcoin_passport then -15 else 0)
  + (if signals.has_poap then -5 else 0)
  + (if optGT signals.on_chain_reputation 70 then -10 else 0)
  + (if optGT signals.credit_score 700 then -15 else 0)

/-- RuleBasedEngine._score_defi_health -/
def score_defi_health (signals : WalletSignals) : ℚ :=
  match signals.lending_borrowing with
  | none => 0
  | some lb =>
    let health_factor := lb.health_factor
    if health_factor < 1.05 then 50
    else if health_factor < 1.1 then 40
    else if health_factor < 1.2 then 30
    else if health_factor < 1.5 then 20
    else if health_factor < 2.0 then 10
    else 0

/-- RuleBasedEngine._score_protocol_health -/
def score_protocol_health (protocol : ProtocolHealthIndicators) : ℚ :=
  (if protocol.default_rate > 10 then 25 else if protocol.default_rate > 5 then 15 else 0)
  + (if protocol.liquidation_events_24h > 20 then 20
     else if protocol.liquidation_events_24h > 10 then 10 else 0)
  + (if !protocol.paused_contracts.isEmpty then 30 else 0)
  + (if !protocol.oracle_freshness then 25 else 0)
  + (if protocol.oracle_deviation > 5 then 15 else 0)

/-- RuleBasedEngine._score_market_volatility -/
def score_market_volatility (market : MarketVolatilityFlags) : ℚ :=
  (if market.volatility_index > 80 then 30
   else if market.volatility_index > 70 then 25
   else if market.volatility_index > 50 then 15
   else 0)
  + (if market.flash_crash_detected then 30 else 0)
  + (if market.black_swan_event then 40 else 0)
  + (if market.large_liquidations_in_progress then 20 else 0)
  + (if market.network_congestion = .EXTREME then 10 else 0)

/-- RuleBasedEngine.calculate_risk_score: sum of all contribution terms,
clamped to [0, 100]. -/
def calculate_risk_score (agent_input : AgentInput) : ℚ :=
  let score :=
    score_wallet_age agent_input.wallet_signals
    + score_balance agent_input.wallet_signals
    + score_transaction_patterns agent_input.wallet_signals
    + score_suspicious_patterns agent_input.wallet_signals
    + score_reputation agent_input.wallet_signals
    + score_defi_health agent_input.wallet_signals
    + score_protocol_health agent_input.protocol_health
    + score_market_volatility agent_input.market_volatility
  max 0 (min 100 score)

/-- RuleBasedEngine._check_critical_blockers -/
def check_critical_blockers (signals : WalletSignals)
    (protocol : ProtocolHealthIndicators) (market : MarketVolatilityFlags) : Bool :=
  if signals.suspicious_patterns.sanctioned_address_interaction then true
  else if (match signals.lending_borrowing with
           | some lb => decide (lb.health_factor < 1.05 ∧ market.volatility_index > 70)
           | none => false) then true
  else if !protocol.paused_contracts.isEmpty then true
  else false

/-- RuleBasedEngine._has_positive_signals (note the source tests
`ens_name is not None` here, not truthiness). -/
def has_positive_signals (signals : WalletSignals) : Bool :=
  signals.ens_name.isSome
  || signals.has_gitcoin_passport
  || decide (signals.age_in_days > 365)
  || optGT signals.on_chain_reputation 70

/-- RuleBasedEngine._has_negative_signals -/
def has_negative_signals (signals : WalletSignals) : Bool :=
  let patterns := signals.suspicious_patterns
  patterns.mixer_interaction
  || patterns.rapid_draining
  || patterns.unusual_activity
  || patterns.new_wallet_high_value

/-- RuleBasedEngine.map_score_to_decision: returns (decision, needs_llm_analysis). -/
def map_score_to_decision (risk_score : ℚ) (signals : WalletSignals)
    (protocol : ProtocolHealthIndicators) (market : MarketVolatilityFlags) :
    DecisionType × Bool :=
  if check_critical_blockers signals protocol market then ("ENFORCE_ACTION", false)
  else if risk_score ≥ 80 then ("ENFORCE_ACTION", false)
  else if risk_score ≥ 60 then
    if has_positive_signals signals ∧ has_negative_signals signals then
      ("REQUEST_SEVERITY_ANALYSIS", true)
    else
      ("ENFORCE_ACTION", false)
  else if risk_score ≥ 30 then ("MONITOR", false)
  else ("NO_ACTION", false)

/-! ## Escalation reasoning layer (src/agent/llm_reasoning.py) -/

/-- A structured response from the external reasoning provider; each field is
optional, mirroring `dict.get` with a default in the parser. -/
structure ProviderResponse where
  risk_score : Option ℚ := none
  classification : Option String := none
  decision : Option String := none
  reasoning : Option String := none
  confidence : Option ℚ := none
deriving Repr, DecidableEq

/-- The dictionary returned by LLMReasoning.analyze. -/
structure LLMResult where
  risk_score : ℚ
  decision : String
  reasoning : String
  confidence : ℚ
  classification : String
deriving Repr, DecidableEq

/-- LLMReasoning._parse_llm_response: extracts fields with defaults, applies
the non-bypassable safety override when the base score exceeds 85, and fuses
the scores with fixed weights 0.4 and 0.6. -/
def parse_llm_response (llm_response : ProviderResponse) (base_score : ℚ) : LLMResult :=
  let llm_risk_score := llm_response.risk_score.getD base_score
  let decision0 := llm_response.decision.getD "MONITOR"
  let reasoning0 := llm_response.reasoning.getD ""
  let confidence0 := llm_response.confidence.getD 50
  let override := base_score > 85 ∧ decision0 ≠ "ENFORCE_ACTION"
  { risk_score := base_score * 0.4 + llm_risk_score * 0.6
    decision := if override then "ENFORCE_ACTION" else decision0
    reasoning :=
      if override then reasoning0 ++ " [OVERRIDE: Critical risk detected by rule-based engine]"
      else reasoning0
    confidence := if override then min confidence0 70 else confidence0
    classification := llm_response.classification.getD "Unknown" }

/-- LLMReasoning._fallback_analysis: conservative policy used when no
provider is configured. -/
def fallback_analysis (base_risk_score : ℚ) : LLMResult :=
  let dr : String × String :=
    if base_risk_score ≥ 75 then
      ("ENFORCE_ACTION", "High risk score detected. LLM unavailable - using conservative approach.")
    else if base_risk_score ≥ 50 then
      ("MONITOR", "Elevated risk. LLM unavailable - defaulting to monitoring.")
    else
      ("NO_ACTION", "Risk within acceptable range.")
  { risk_score := base_risk_score
    decision := dr.1
    reasoning := dr.2
    confidence := 60
    classification := "Automated fallback" }

/-- The fixed dictionary returned by LLMReasoning._call_llm when the provider
call raises an exception (transport or parse failure). -/
def call_llm_error_response (err : String) : ProviderResponse :=
  { risk_score := some 65
    classification := some "Error fallback"
    decision := some "MONITOR"
    reasoning := some ("LLM analysis failed: " ++ err ++ ". Defaulting to monitor.")
    confidence := some 50 }

/-- The canned dictionary returned by LLMReasoning._call_llm when the key is
configured but falsy (empty string). -/
def call_llm_mock_response : ProviderResponse :=
  { risk_score := some 65
    classification := some "Privacy-focused user"
    decision := some "MONITOR"
    reasoning := some ("Wallet shows mixer interaction but also has strong reputation signals (ENS, Gitcoin). Likely a privacy-conscious user rather than malicious actor. Recommend monitoring rather than immediate action.")
    confidence := some 75 }

/-- Outcome of the external provider interaction, the only non-deterministic
part of the pipeline: not configured, a parsed JSON response, an exception
during the call, or the canned mock (configured but falsy key). -/
inductive ProviderOutcome where
  | noProvider
  | success (resp : ProviderResponse)
  | failure (err : String)
  | mock
deriving Repr, DecidableEq

/-- LLMReasoning.analyze: fallback when no provider is configured, otherwise
the provider response (real, error-substituted, or mock) goes through
_parse_llm_response.  Total: every provider outcome yields a result, no
exception propagates to the caller. -/
def llm_reasoning_analyze (outcome : ProviderOutcome) (base_risk_score : ℚ) : LLMResult :=
  match outcome with
  | .noProvider => fallback_analysis base_risk_score
  | .success resp => parse_llm_response resp base_risk_score
  | .failure err => parse_llm_response (call_llm_error_response err) base_risk_score
  | .mock => parse_llm_response call_llm_mock_response base_risk_score

/-! ## Orchestrator (src/agent/orchestrator.py) -/

/-- Plain rendering of a rational for interpolated reasoning text (the
source uses fixed-point float formatting; the exact rendering is immaterial
to the logic). -/
def qstr (q : ℚ) : String :=
  toString q.num ++ (if q.den = 1 then "" else "/" ++ toString q.den)

/-- AgentOrchestrator._calculate_rule_based_confidence: step function of the
distance to the nearest decision boundary 30, 60, 80. -/
def calculate_rule_based_confidence (risk_score : ℚ) : ℚ :=
  let min_distance := min |risk_score - 30| (min |risk_score - 60| |risk_score - 80|)
  if min_distance ≥ 10 then 90
  else if min_distance ≥ 5 then 75
  else 60

/-- AgentOrchestrator._generate_rule_based_reasoning -/
def generate_rule_based_reasoning (risk_score : ℚ) (agent_input : AgentInput) : String :=
  let signals := agent_input.wallet_signals
  let protocol := agent_input.protocol_health
  let market := agent_input.market_volatility
  let parts : List String :=
    ["Risk Score: " ++ qstr risk_score ++ "/100. "]
    ++ (if signals.age_in_days < 30 then
          ["New wallet (" ++ toString signals.age_in_days ++ " days old). "] else [])
    ++ (match signals.lending_borrowing with
        | some lb =>
          if lb.health_factor < 1.5 then
            ["Health factor " ++ qstr lb.health_factor ++ " - liquidation risk. "] else []
        | none => [])
    ++ (if signals.suspicious_patterns.rapid_draining then ["Rapid asset drainage detected. "] else [])
    ++ (if signals.suspicious_patterns.mixer_interaction then ["Privacy mixer interaction found. "] else [])
    ++ (if market.volatility_index > 70 then
          ["High market volatility (" ++ qstr market.volatility_index ++ "/100). "] else [])
    ++ (if protocol.default_rate > 5 then
          ["Elevated protocol default rate (" ++ qstr protocol.default_rate ++ "%). "] else [])
    ++ (if signals.has_gitcoin_passport then ["Gitcoin Passport verified. "] else [])
    ++ (match signals.ens_name with
        | some n => if n ≠ "" then ["ENS: " ++ n ++ ". "] else []
        | none => [])
  (String.join parts).trim

/-- AgentOrchestrator._generate_recommendations (the risk_score parameter is
taken but unused, as in the source). -/
def generate_recommendations (decision : DecisionType) (_risk_score : ℚ)
    (agent_input : AgentInput) : List String :=
  let signals := agent_input.wallet_signals
  if decision = "NO_ACTION" then
    ["Continue normal monitoring"]
    ++ (match signals.lending_borrowing with
        | some lb =>
          if lb.health_factor < 2.0 then
            ["Monitor health factor - currently safe but could improve"] else []
        | none => [])
  else if decision = "MONITOR" then
    ["Increase monitoring frequency to hourly"]
    ++ (match signals.lending_borrowing with
        | some lb => if lb.health_factor < 1.5 then ["Set alert for health factor < 1.2"] else []
        | none => [])
    ++ (if signals.suspicious_patterns.unusual_activity then
          ["Watch for continued unusual transaction patterns"] else [])
    ++ ["Review again in 24 hours"]
  else if decision = "REQUEST_SEVERITY_ANALYSIS" then
    ["Escalate to human review or advanced LLM analysis",
     "Gather additional context on flagged behaviors"]
    ++ (if signals.suspicious_patterns.mixer_interaction then
          ["Investigate mixer usage - potentially legitimate privacy concern"] else [])
  else if decision = "ENFORCE_ACTION" then
    ["IMMEDIATE: Notify wallet owner"]
    ++ (match signals.lending_borrowing with
        | some lb =>
          if lb.health_factor < 1.2 then
            ["IMMEDIATE: Suggest collateral top-up",
             "IMMEDIATE: Prepare liquidation if health factor < 1.0"] else []
        | none => [])
    ++ (if signals.suspicious_patterns.sanctioned_address_interaction then
          ["IMMEDIATE: Freeze position pending compliance review"] else [])
    ++ (if signals.suspicious_patterns.rapid_draining then
          ["URGENT: Investigate potential compromise", "Consider temporary position freeze"] else [])
  else []

/-- AgentOrchestrator._extract_flags (the risk_score parameter is taken but
unused, as in the source). -/
def extract_flags (agent_input : AgentInput) (_risk_score : ℚ) : List String :=
  let signals := agent_input.wallet_signals
  let market := agent_input.market_volatility
  (if signals.age_in_days < 7 then ["VERY_NEW_WALLET"]
   else if signals.age_in_days < 30 then ["NEW_WALLET"] else [])
  ++ (if signals.suspicious_patterns.rapid_draining then ["RAPID_DRAINAGE"] else [])
  ++ (if signals.suspicious_patterns.mixer_interaction then ["MIXER_INTERACTION"] else [])
  ++ (if signals.suspicious_patterns.unusual_activity then ["UNUSUAL_ACTIVITY"] else [])
  ++ (if signals.suspicious_patterns.sanctioned_address_interaction then ["SANCTIONED_ADDRESS"] else [])
  ++ (match signals.lending_borrowing with
      | some lb =>
        if lb.health_factor < 1.1 then ["CRITICAL_HEALTH_FACTOR"]
        else if lb.health_factor < 1.3 then ["LOW_HEALTH_FACTOR"]
        else if lb.health_factor < 1.5 then ["DECLINING_HEALTH_FACTOR"]
        else []
      | none => [])
  ++ (if market.volatility_index > 70 then ["HIGH_MARKET_VOLATILITY"] else [])
  ++ (if market.flash_crash_detected then ["FLASH_CRASH_ACTIVE"] else [])
  ++ (if signals.has_gitcoin_passport then ["GITCOIN_VERIFIED"] else [])
  ++ (if strTruthy signals.ens_name then ["HAS_ENS"] else [])

/-- AgentOrchestrator.analyze.  The wall-clock readings (output timestamp and
measured processing time) are pure inputs here; the provider outcome models
the single external call. -/
def orchestrator_analyze (outcome : ProviderOutcome) (agent_input : AgentInput)
    (timestamp : Int) (processing_time_ms : ℚ) : AgentOutput :=
  let risk_score0 := calculate_risk_score agent_input
  let dm := map_score_to_decision risk_score0 agent_input.wallet_signals
    agent_input.protocol_health agent_input.market_volatility
  if dm.2 ∨ dm.1 = "REQUEST_SEVERITY_ANALYSIS" then
    let llm_result := llm_reasoning_analyze outcome risk_score0
    { decision := llm_result.decision
      confidence := llm_result.confidence
      reasoning := llm_result.reasoning
      risk_score := llm_result.risk_score
      recommendations := generate_recommendations llm_result.decision llm_result.risk_score agent_input
      flags := extract_flags agent_input llm_result.risk_score
      timestamp := timestamp
      metadata :=
        { processing_time_ms := processing_time_ms
          llm_used := true
          rule_based_score := calculate_risk_score agent_input
          llm_score := some llm_result.risk_score } }
  else
    { decision := dm.1
      confidence := calculate_rule_based_confidence risk_score0
      reasoning := generate_rule_based_reasoning risk_score0 agent_input
      risk_score := risk_score0
      recommendations := generate_recommendations dm.1 risk_score0 agent_input
      flags := extract_flags agent_input risk_score0
      timestamp := timestamp
      metadata :=
        { processing_time_ms := processing_time_ms
          llm_used := false
          rule_based_score := risk_score0
          llm_score := none } }

/-! ## Serialization (AgentOutput.to_dict, src/agent/models.py) -/

/-- Rounding to 2 decimal places, as `round(x, 2)` (the tie-breaking rule of
Python rounding differs at exact midpoints, which never arise in the
properties below). -/
def round2 (q : ℚ) : ℚ := (round (q * 100) : ℚ) / 100

structure SerializedMetadata where
  processing_time_ms : ℚ
  llm_used : Bool
  rule_based_score : ℚ
  llm_score : Option ℚ
deriving Repr, DecidableEq

structure SerializedOutput where
  decision : String
  confidence : ℚ
  reasoning : String
  risk_score : ℚ
  recommendations : List String
  flags : List String
  timestamp : Int
  metadata : SerializedMetadata
deriving Repr, DecidableEq

/-- AgentOutput.to_dict.  Note the source guards the llm_score entry with
`if self.metadata.llm_score` (truthiness), so both None and 0.0 serialize
to None. -/
def to_dict (out : AgentOutput) : SerializedOutput :=
  { decision := out.decision
    confidence := round2 out.confidence
    reasoning := out.reasoning
    risk_score := round2 out.risk_score
    recommendations := out.recommendations
    flags := out.flags
    timestamp := out.timestamp
    metadata :=
      { processing_time_ms := round2 out.metadata.processing_time_ms
        llm_used := out.metadata.llm_used
        rule_based_score := round2 out.metadata.rule_based_score
        llm_score :=
          match out.metadata.llm_score with
          | some s => if s ≠ 0 then some (round2 s) else none
          | none => none } }

/-! ## Concrete fixtures used in witnesses and counterexamples -/

/-- A mature, quiet wallet: age 400 days, no suspicious patterns, no
reputation markers, zero velocity, 5000 USD balance. -/
def base_signals : WalletSignals :=
  { wallet_address := "0xabcdef0123456789"
    first_seen_timestamp := 0
    age_in_days := 400
    total_transactions := 10
    average_transactions_per_day := 1
    last_activity_timestamp := 0
    days_since_last_activity := 0
    current_balance := ⟨1, 1, 5000⟩
    portfolio_value := ⟨0, 0, 0, 5000⟩
    transaction_velocity := ⟨0, 0, 0⟩
    unique_contracts_interacted := 1
    unique_addresses_interacted := 1
    suspicious_patterns := {} }

/-- A protocol with no risk contributions. -/
def healthy_protocol : ProtocolHealthIndicators :=
  { total_value_locked := 1000000
    total_active_users := 100
    system_utilization_rate := 50
    liquidity_depth := ⟨1, 1, 1⟩
    default_rate := 0
    average_health_factor := 2
    liquidation_events_24h := 0 }

/-- A market with no risk contributions. -/
def calm_market : MarketVolatilityFlags :=
  { volatility_index := 0
    market_sentiment := .NEUTRAL }

def request_meta : RequestMetadata :=
  { request_id := "req-1"
    timestamp := 0
    request_type := .SCHEDULED_CHECK
    requested_by := "tester" }

/-- Deterministic score 60 with both positive (age over 365) and negative
(mixer) signals: the mapper escalates with REQUEST_SEVERITY_ANALYSIS. -/
def ambiguous_input : AgentInput :=
  { wallet_signals :=
      { base_signals with
        current_balance := ⟨0, 0, 50⟩
        suspicious_patterns := { rapid_draining := true, mixer_interaction := true } }
    protocol_health := healthy_protocol
    market_volatility := calm_market
    metadata := request_meta }

/-- A provider response whose numeric fields lie outside [0, 100]. -/
def overflow_response : ProviderResponse :=
  { risk_score := some 200
    classification := some "Threat"
    decision := some "NO_ACTION"
    reasoning := some "out of range response"
    confidence := some 150 }

/-- Lending position with health factor 1.08 under volatility 92, with
enough reputation offsets that the additive score is 0. -/
def near_critical_input : AgentInput :=
  { wallet_signals :=
      { base_signals with
        lending_borrowing := some ⟨1000, 2000, 1.08⟩
        ens_name := some "alice.eth"
        has_gitcoin_passport := true
        has_poap := true
        on_chain_reputation := some 80
        credit_score := some 750
        portfolio_value := ⟨0, 0, 0, 200000⟩ }
    protocol_health := healthy_protocol
    market_volatility := { calm_market with volatility_index := 92 }
    metadata := request_meta }

/-- Same input with health factor 1.04, below the 1.05 blocker threshold. -/
def below_threshold_input : AgentInput :=
  { near_critical_input with
    wallet_signals :=
      { near_critical_input.wallet_signals with
        lending_borrowing := some ⟨1000, 2000, 1.04⟩ } }

/-- Sanctioned + rapid draining + mixer on a mature wallet: deterministic
score 95, above the 85 safety-override threshold. -/
def critical_input : AgentInput :=
  { wallet_signals :=
      { base_signals with
        suspicious_patterns :=
          { rapid_draining := true, mixer_interaction := true,
            sanctioned_address_interaction := true } }
    protocol_health := healthy_protocol
    market_volatility := calm_market
    metadata := request_meta }

/-- Wallet with 150 transactions in 24h against 450 over 30 days. -/
def velocity_signals : WalletSignals :=
  { base_signals with
    age_in_days := 100
    transaction_velocity := ⟨150, 150, 450⟩ }

/-- An output produced with escalation whose escalated score is exactly 0. -/
def zero_llm_output : AgentOutput :=
  { decision := "MONITOR"
    confidence := 50
    reasoning := "escalated"
    risk_score := 0
    recommendations := []
    flags := []
    timestamp := 0
    metadata :=
      { processing_time_ms := 1
        llm_used := true
        rule_based_score := 60
        llm_score := some 0 } }

/-! ## Helper lemmas -/

/-- The deterministic score is clamped to [0, 100]. -/
theorem calculate_risk_score_bounds (agent_input : AgentInput) :
    0 ≤ calculate_risk_score agent_input ∧ calculate_risk_score agent_input ≤ 100 := by
  unfold calculate_risk_score
  exact ⟨le_max_left 0 _, max_le (by norm_num) (min_le_left _ _)⟩

/-- Rule-based confidence is one of the three step values. -/
theorem calculate_rule_based_confidence_mem (q : ℚ) :
    calculate_rule_based_confidence q = 90 ∨ calculate_rule_based_confidence q = 75 ∨
    calculate_rule_based_confidence q = 60 := by
  simp only [calculate_rule_based_confidence]
  split_ifs <;> simp

/-- Bounds for the parsed provider response, assuming the base score and the
provider-supplied numeric fields are in range. -/
theorem parse_llm_response_bounds (resp : ProviderResponse) (base : ℚ)
    (hb0 : 0 ≤ base) (hb1 : base ≤ 100)
    (hrs : ∀ s, resp.risk_score = some s → 0 ≤ s ∧ s ≤ 100)
    (hc : ∀ c, resp.confidence = some c → 0 ≤ c ∧ c ≤ 100) :
    0 ≤ (parse_llm_response resp base).risk_score ∧
    (parse_llm_response resp base).risk_score ≤ 100 ∧
    0 ≤ (parse_llm_response resp base).confidence ∧
    (parse_llm_response resp base).confidence ≤ 100 := by
  have hrs1 : 0 ≤ resp.risk_score.getD base ∧ resp.risk_score.getD base ≤ 100 := by
    cases h : resp.risk_score with
    | none => simpa using ⟨hb0, hb1⟩
    | some s => simpa using hrs s h
  have hc1 : 0 ≤ resp.confidence.getD 50 ∧ resp.confidence.getD 50 ≤ 100 := by
    cases h : resp.confidence with
    | none => norm_num
    | some c => simpa using hc c h
  simp only [parse_llm_response]
  refine ⟨by linarith [hrs1.1], by linarith [hrs1.2], ?_, ?_⟩
  · split
    · exact le_min hc1.1 (by norm_num)
    · exact hc1.1
  · split
    · exact (min_le_right _ _).trans (by norm_num)
    · exact hc1.2

/-- In-range assumption on the provider outcome: whenever an actual response
is delivered, its numeric fields lie in [0, 100]. -/
def resp_in_range : ProviderOutcome → Prop
  | .success resp =>
      (∀ s, resp.risk_score = some s → 0 ≤ s ∧ s ≤ 100) ∧
      (∀ c, resp.confidence = some c → 0 ≤ c ∧ c ≤ 100)
  | _ => True

/-- Bounds for the escalation result under the in-range assumption. -/
theorem llm_reasoning_analyze_bounds (outcome : ProviderOutcome) (base : ℚ)
    (hb0 : 0 ≤ base) (hb1 : base ≤ 100) (h : resp_in_range outcome) :
    0 ≤ (llm_reasoning_analyze outcome base).risk_score ∧
    (llm_reasoning_analyze outcome base).risk_score ≤ 100 ∧
    0 ≤ (llm_reasoning_analyze outcome base).confidence ∧
    (llm_reasoning_analyze outcome base).confidence ≤ 100 := by
  cases outcome with
  | noProvider =>
    simp only [llm_reasoning_analyze, fallback_analysis]
    exact ⟨hb0, hb1, by norm_num, by norm_num⟩
  | success resp =>
    exact parse_llm_response_bounds resp base hb0 hb1 h.1 h.2
  | failure err =>
    refine parse_llm_response_bounds _ base hb0 hb1 ?_ ?_ <;>
      intro v hv <;> simp [call_llm_error_response] at hv <;> simp [← hv] <;> norm_num
  | mock =>
    refine parse_llm_response_bounds _ base hb0 hb1 ?_ ?_ <;>
      intro v hv <;> simp [call_llm_mock_response] at hv <;> simp [← hv] <;> norm_num

/-- Deterministic score of the ambiguous fixture. -/
theorem ambiguous_input_score : calculate_risk_score ambiguous_input = 60 := by
  simp [calculate_risk_score, score_wallet_age, score_balance, score_transaction_patterns,
    score_suspicious_patterns, score_reputation, score_defi_health, score_protocol_health,
    score_market_volatility, calculate_velocity_ratio, strTruthy, optGT,
    ambiguous_input, base_signals, healthy_protocol, calm_market]
  norm_num

/-- The ambiguous fixture is routed to severity analysis with escalation. -/
theorem ambiguous_input_map : map_score_to_decision 60 ambiguous_input.wallet_signals
    ambiguous_input.protocol_health ambiguous_input.market_volatility
    = ("REQUEST_SEVERITY_ANALYSIS", true) := by
  simp [map_score_to_decision, check_critical_blockers, has_positive_signals,
    has_negative_signals, optGT, ambiguous_input, base_signals, healthy_protocol, calm_market]
  norm_num

/-- Deterministic score of the sanctioned fixture. -/
theorem critical_input_score : calculate_risk_score critical_input = 95 := by
  simp [calculate_risk_score, score_wallet_age, score_balance, score_transaction_patterns,
    score_suspicious_patterns, score_reputation, score_defi_health, score_protocol_health,
    score_market_volatility, calculate_velocity_ratio, strTruthy, optGT,
    critical_input, base_signals, healthy_protocol, calm_market]
  norm_num

/-! ## Claim theorems -/

/-- C1 (counterexample): the claim that risk_score and confidence are always
in [0, 100] fails on the escalation path: on the ambiguous fixture (base
score 60) a provider response with risk_score 200 and confidence 150 yields
an output with risk_score 144 and confidence 150 — the parser never clamps
the provider-returned values. -/
theorem output_exceeds_bounds_on_overflow_response :
    (orchestrator_analyze (.success overflow_response) ambiguous_input 0 0).risk_score = 144 ∧
    (orchestrator_analyze (.success overflow_response) ambiguous_input 0 0).confidence = 150 ∧
    ¬((orchestrator_analyze (.success overflow_response) ambiguous_input 0 0).risk_score ≤ 100) ∧
    ¬((orchestrator_analyze (.success overflow_response) ambiguous_input 0 0).confidence ≤ 100) := by
  rw [orchestrator_analyze, ambiguous_input_score, ambiguous_input_map]
  simp [llm_reasoning_analyze, parse_llm_response, overflow_response]
  norm_num

/-- C1 (amended): for every AgentInput and every provider outcome whose
delivered numeric fields lie in [0, 100], the output of analyze has
risk_score in [0, 100] and confidence in [0, 100]; the restriction to
in-range provider responses is forced by the counterexample above. -/
theorem output_bounds (outcome : ProviderOutcome) (agent_input : AgentInput)
    (ts : Int) (pt : ℚ) (h : resp_in_range outcome) :
    0 ≤ (orchestrator_analyze outcome agent_input ts pt).risk_score ∧
    (orchestrator_analyze outcome agent_input ts pt).risk_score ≤ 100 ∧
    0 ≤ (orchestrator_analyze outcome agent_input ts pt).confidence ∧
    (orchestrator_analyze outcome agent_input ts pt).confidence ≤ 100 := by
  obtain ⟨hb0, hb1⟩ := calculate_risk_score_bounds agent_input
  simp only [orchestrator_analyze]
  split
  · obtain ⟨h1, h2, h3, h4⟩ :=
      llm_reasoning_analyze_bounds outcome (calculate_risk_score agent_input) hb0 hb1 h
    exact ⟨h1, h2, h3, h4⟩
  · refine ⟨hb0, hb1, ?_, ?_⟩ <;>
      rcases calculate_rule_based_confidence_mem (calculate_risk_score agent_input) with
        hc | hc | hc <;> rw [hc] <;> norm_num

/-- C1 (witness): the amended bounds at a concrete input and an in-range
provider response. -/
theorem output_bounds_witness :
    0 ≤ (orchestrator_analyze (.success ⟨some 80, some "Threat", some "MONITOR", some "r", some 90⟩)
        ambiguous_input 0 0).risk_score ∧
    (orchestrator_analyze (.success ⟨some 80, some "Threat", some "MONITOR", some "r", some 90⟩)
        ambiguous_input 0 0).risk_score ≤ 100 ∧
    0 ≤ (orchestrator_analyze (.success ⟨some 80, some "Threat", some "MONITOR", some "r", some 90⟩)
        ambiguous_input 0 0).confidence ∧
    (orchestrator_analyze (.success ⟨some 80, some "Threat", some "MONITOR", some "r", some 90⟩)
        ambiguous_input 0 0).confidence ≤ 100 :=
  output_bounds (.success ⟨some 80, some "Threat", some "MONITOR", some "r", some 90⟩)
    ambiguous_input 0 0
    (by refine ⟨?_, ?_⟩ <;> intro v hv <;> simp at hv <;> simp [← hv] <;> norm_num)

/-- C2: if the sanctioned-address-interaction flag is set, the pipeline
returns enforce-action without escalation, for every provider outcome and
all remaining signal, protocol and market fields. -/
theorem sanctioned_forces_enforce (outcome : ProviderOutcome) (agent_input : AgentInput)
    (ts : Int) (pt : ℚ)
    (h : agent_input.wallet_signals.suspicious_patterns.sanctioned_address_interaction = true) :
    (orchestrator_analyze outcome agent_input ts pt).decision = "ENFORCE_ACTION" ∧
    (orchestrator_analyze outcome agent_input ts pt).metadata.llm_used = false := by
  have hcb : check_critical_blockers agent_input.wallet_signals
      agent_input.protocol_health agent_input.market_volatility = true := by
    unfold check_critical_blockers
    simp [h]
  have hmap : map_score_to_decision (calculate_risk_score agent_input)
      agent_input.wallet_signals agent_input.protocol_health agent_input.market_volatility
      = ("ENFORCE_ACTION", false) := by
    unfold map_score_to_decision
    simp [hcb]
  rw [orchestrator_analyze, hmap]
  simp

/-- C2 (witness): the sanctioned fixture gets enforce-action, no escalation. -/
theorem sanctioned_forces_enforce_witness :
    (orchestrator_analyze .noProvider critical_input 0 0).decision = "ENFORCE_ACTION" ∧
    (orchestrator_analyze .noProvider critical_input 0 0).metadata.llm_used = false :=
  sanctioned_forces_enforce .noProvider critical_input 0 0 rfl

/-- C3: when the deterministic score exceeds 85, the final decision of
analyze is enforce-action for every provider outcome (in fact escalation is
never invoked there, since score 85 already exceeds the 80 threshold); and
independently, the escalation parser forces any non-enforce-action response
to enforce-action, appends the override annotation to the reasoning, and
caps confidence at min(confidence, 70). -/
theorem high_score_forces_enforce :
    (∀ (outcome : ProviderOutcome) (agent_input : AgentInput) (ts : Int) (pt : ℚ),
       85 < calculate_risk_score agent_input →
       (orchestrator_analyze outcome agent_input ts pt).decision = "ENFORCE_ACTION") ∧
    (∀ (resp : ProviderResponse) (base : ℚ),
       85 < base → resp.decision.getD "MONITOR" ≠ "ENFORCE_ACTION" →
       (parse_llm_response resp base).decision = "ENFORCE_ACTION" ∧
       (parse_llm_response resp base).reasoning
         = resp.reasoning.getD "" ++ " [OVERRIDE: Critical risk detected by rule-based engine]" ∧
       (parse_llm_response resp base).confidence = min (resp.confidence.getD 50) 70) := by
  constructor
  · intro outcome agent_input ts pt hs
    have hmap : map_score_to_decision (calculate_risk_score agent_input)
        agent_input.wallet_signals agent_input.protocol_health agent_input.market_volatility
        = ("ENFORCE_ACTION", false) := by
      unfold map_score_to_decision
      by_cases hcb : check_critical_blockers agent_input.wallet_signals
          agent_input.protocol_health agent_input.market_volatility
      · simp [hcb]
      · simp only [hcb, if_false, Bool.false_eq_true]
        rw [if_pos (by linarith)]
    rw [orchestrator_analyze, hmap]
    simp
  · intro resp base h85 hd
    simp only [parse_llm_response]
    simp [h85, hd]

/-- C3 (witness): the sanctioned fixture has deterministic score 95 > 85 and
gets enforce-action; a response recommending NO_ACTION at base 90 is forced
to enforce-action with the annotation and the confidence cap. -/
theorem high_score_forces_enforce_witness :
    (orchestrator_analyze .noProvider critical_input 0 0).decision = "ENFORCE_ACTION" ∧
    (parse_llm_response overflow_response 90).decision = "ENFORCE_ACTION" ∧
    (parse_llm_response overflow_response 90).reasoning
      = "out of range response" ++ " [OVERRIDE: Critical risk detected by rule-based engine]" ∧
    (parse_llm_response overflow_response 90).confidence = min 150 70 := by
  refine ⟨?_, ?_⟩
  · exact high_score_forces_enforce.1 .noProvider critical_input 0 0
      (by rw [critical_input_score]; norm_num)
  · have h := high_score_forces_enforce.2 overflow_response 90 (by norm_num)
      (by simp [overflow_response])
    simpa [overflow_response] using h

/-- C4 (counterexample): on a transport failure with base score 0, the
reasoner returns risk_score 39, not the base score: the error path
substitutes a record with risk_score fixed at 65, which is then fused with
weight 0.6, so the returned score is not "unchanged from base". -/
theorem failure_fallback_changes_score :
    (llm_reasoning_analyze (.failure "connection error") 0).risk_score = 39 ∧
    (llm_reasoning_analyze (.failure "connection error") 0).risk_score ≠ 0 := by
  simp [llm_reasoning_analyze, parse_llm_response, call_llm_error_response]
  norm_num

/-- C4 (amended): on transport/parse failure the reasoner never raises
(modelled total): it substitutes an internal record with risk_score 65,
decision monitor, confidence 50, then runs the ordinary parse step, so the
returned record has risk_score 0.4·base + 39, confidence 50, and decision
monitor — except that the non-bypassable override rewrites it to
enforce-action when base exceeds 85. -/
theorem failure_fallback_policy (base : ℚ) (err : String) :
    (llm_reasoning_analyze (.failure err) base).risk_score = base * 0.4 + 39 ∧
    (llm_reasoning_analyze (.failure err) base).confidence = 50 ∧
    (llm_reasoning_analyze (.failure err) base).decision
      = (if 85 < base then "ENFORCE_ACTION" else "MONITOR") := by
  simp only [llm_reasoning_analyze, parse_llm_response, call_llm_error_response]
  refine ⟨by norm_num, by norm_num, by simp⟩

/-- C5 (counterexample): health factor 1.08 with volatility index 92 does
NOT fire the critical override (the code threshold is health factor < 1.05),
and with enough reputation offsets the decision is no-action, refuting the
claimed unconditional enforce-action. -/
theorem health_factor_108_no_override :
    check_critical_blockers near_critical_input.wallet_signals
      near_critical_input.protocol_health near_critical_input.market_volatility = false ∧
    (orchestrator_analyze .noProvider near_critical_input 0 0).decision = "NO_ACTION" := by
  have hscore : calculate_risk_score near_critical_input = 0 := by
    simp [calculate_risk_score, score_wallet_age, score_balance, score_transaction_patterns,
      score_suspicious_patterns, score_reputation, score_defi_health, score_protocol_health,
      score_market_volatility, calculate_velocity_ratio, strTruthy, optGT,
      near_critical_input, base_signals, healthy_protocol, calm_market]
    norm_num
  have hcb : check_critical_blockers near_critical_input.wallet_signals
      near_critical_input.protocol_health near_critical_input.market_volatility = false := by
    simp [check_critical_blockers, near_critical_input, base_signals, healthy_protocol, calm_market]
    norm_num
  have hmap : map_score_to_decision 0 near_critical_input.wallet_signals
      near_critical_input.protocol_health near_critical_input.market_volatility
      = ("NO_ACTION", false) := by
    unfold map_score_to_decision
    rw [hcb]
    norm_num
  refine ⟨hcb, ?_⟩
  rw [orchestrator_analyze, hscore, hmap]
  simp

/-- C5 (amended): for every AgentInput with a lending position whose health
factor is below the 1.05 code threshold and market volatility index 92, the
critical override fires and the decision is enforce-action, regardless of
the additive score (in particular when it is below 80). -/
theorem critical_health_volatility_override (outcome : ProviderOutcome)
    (agent_input : AgentInput) (ts : Int) (pt : ℚ) (lb : LendingBorrowing)
    (hlb : agent_input.wallet_signals.lending_borrowing = some lb)
    (hhf : lb.health_factor < 1.05)
    (hvol : agent_input.market_volatility.volatility_index = 92) :
    check_critical_blockers agent_input.wallet_signals
      agent_input.protocol_health agent_input.market_volatility = true ∧
    (orchestrator_analyze outcome agent_input ts pt).decision = "ENFORCE_ACTION" := by
  have hcb : check_critical_blockers agent_input.wallet_signals
      agent_input.protocol_health agent_input.market_volatility = true := by
    unfold check_critical_blockers
    rw [hlb, hvol]
    simp [hhf]
    norm_num
  have hmap : map_score_to_decision (calculate_risk_score agent_input)
      agent_input.wallet_signals agent_input.protocol_health agent_input.market_volatility
      = ("ENFORCE_ACTION", false) := by
    unfold map_score_to_decision
    simp [hcb]
  refine ⟨hcb, ?_⟩
  rw [orchestrator_analyze, hmap]
  simp

/-- C5 (witness): with health factor 1.04 and volatility 92 the override
fires and the decision is enforce-action, while the additive score is only
10, well below 80. -/
theorem critical_health_volatility_override_witness :
    (orchestrator_analyze .noProvider below_threshold_input 0 0).decision = "ENFORCE_ACTION" ∧
    calculate_risk_score below_threshold_input = 10 := by
  refine ⟨(critical_health_volatility_override .noProvider below_threshold_input 0 0
    ⟨1000, 2000, 1.04⟩ rfl (by norm_num) rfl).2, ?_⟩
  simp [calculate_risk_score, score_wallet_age, score_balance, score_transaction_patterns,
    score_suspicious_patterns, score_reputation, score_defi_health, score_protocol_health,
    score_market_volatility, calculate_velocity_ratio, strTruthy, optGT,
    below_threshold_input, near_critical_input, base_signals, healthy_protocol, calm_market]
  norm_num

/-- C6: with no provider configured, the reasoner returns risk_score equal
to the base score, confidence exactly 60, and the decision ladder
base ≥ 75 → enforce-action, base ≥ 50 → monitor, else no-action. -/
theorem no_provider_fallback_policy (base : ℚ) :
    (llm_reasoning_analyze .noProvider base).risk_score = base ∧
    (llm_reasoning_analyze .noProvider base).confidence = 60 ∧
    (llm_reasoning_analyze .noProvider base).decision
      = (if base ≥ 75 then "ENFORCE_ACTION" else if base ≥ 50 then "MONITOR" else "NO_ACTION") := by
  simp only [llm_reasoning_analyze, fallback_analysis]
  refine ⟨trivial, trivial, ?_⟩
  split_ifs <;> rfl

/-- C7: whenever a provider response is parsed, the returned risk score is
exactly 0.4 times the deterministic base score plus 0.6 times the
provider-returned risk score (the base score when the field is absent), for
every pair of scores. -/
theorem score_fusion_weights (resp : ProviderResponse) (base : ℚ) :
    (parse_llm_response resp base).risk_score
      = 0.4 * base + 0.6 * resp.risk_score.getD base := by
  simp only [parse_llm_response]
  ring

/-- C8: the velocity-ratio computation is total: a zero wallet age or a zero
30-day count yields the neutral ratio 1 with no division error; otherwise
the ratio is the 24h count divided by (30-day count / 30); and concretely,
last_24h = 150 with last_30d = 450 gives ratio 10 and a +25 velocity
contribution. -/
theorem velocity_ratio_spec :
    (∀ (velocity : TransactionVelocity) (age_days : Int),
       age_days = 0 ∨ velocity.last_30d = 0 →
       calculate_velocity_ratio velocity age_days = 1) ∧
    (∀ (velocity : TransactionVelocity) (age_days : Int),
       age_days ≠ 0 → velocity.last_30d ≠ 0 →
       calculate_velocity_ratio velocity age_days
         = (velocity.last_24h : ℚ) / ((velocity.last_30d : ℚ) / 30)) ∧
    calculate_velocity_ratio ⟨150, 150, 450⟩ 100 = 10 ∧
    score_transaction_patterns velocity_signals = 25 := by
  have hzero : ∀ (velocity : TransactionVelocity) (age_days : Int),
      age_days = 0 ∨ velocity.last_30d = 0 →
      calculate_velocity_ratio velocity age_days = 1 := by
    intro velocity age_days h
    unfold calculate_velocity_ratio
    rw [if_pos h]
  have hratio : ∀ (velocity : TransactionVelocity) (age_days : Int),
      age_days ≠ 0 → velocity.last_30d ≠ 0 →
      calculate_velocity_ratio velocity age_days
        = (velocity.last_24h : ℚ) / ((velocity.last_30d : ℚ) / 30) := by
    intro velocity age_days h1 h2
    have havg : ((velocity.last_30d : ℚ) / 30) ≠ 0 :=
      div_ne_zero (by exact_mod_cast h2) (by norm_num)
    unfold calculate_velocity_ratio
    rw [if_neg (by tauto)]
    simp only [if_neg havg]
  refine ⟨hzero, hratio, ?_, ?_⟩
  · rw [hratio ⟨150, 150, 450⟩ 100 (by norm_num) (by norm_num)]
    norm_num
  · simp [score_transaction_patterns, calculate_velocity_ratio, velocity_signals, base_signals]
    norm_num

/-- C8 (witness): the zero-division guard and the general ratio formula at
concrete velocity records. -/
theorem velocity_ratio_spec_witness :
    calculate_velocity_ratio ⟨3, 3, 0⟩ 7 = 1 ∧
    calculate_velocity_ratio ⟨150, 150, 450⟩ 100 = (150 : ℚ) / ((450 : ℚ) / 30) :=
  ⟨velocity_ratio_spec.1 ⟨3, 3, 0⟩ 7 (Or.inr rfl),
   velocity_ratio_spec.2.1 ⟨150, 150, 450⟩ 100 (by norm_num) (by norm_num)⟩

/-- C9: the metadata of an escalated output does record the score, but the
serializer guards the llm_score entry with Python truthiness, so an
escalated score of exactly 0 is serialized as None — the escalated score IS
dropped, contradicting the claim; this is a code bug (the spec and the
audit-trail intent require `is not None`, not truthiness). -/
theorem serialization_drops_zero_llm_score :
    zero_llm_output.metadata.llm_used = true ∧
    zero_llm_output.metadata.llm_score = some 0 ∧
    (to_dict zero_llm_output).metadata.llm_score = none := by
  refine ⟨rfl, rfl, ?_⟩
  simp [to_dict, zero_llm_output]

/-- C10: the decision mapper returns needs_escalation = true exactly when
its returned decision is REQUEST_SEVERITY_ANALYSIS, for every score and all
signal, protocol and market values; hence the two escalation triggers
checked by the orchestrator are equivalent. -/
theorem needs_escalation_iff_severity_analysis (risk_score : ℚ) (signals : WalletSignals)
    (protocol : ProtocolHealthIndicators) (market : MarketVolatilityFlags) :
    (map_score_to_decision risk_score signals protocol market).2 = true ↔
    (map_score_to_decision risk_score signals protocol market).1
      = "REQUEST_SEVERITY_ANALYSIS" := by
  unfold map_score_to_decision
  split_ifs <;> simp

end WalletRisk
